import Mathlib

/-!
Shallow embedding of `src/main.rs` of the rust_webdds_client repository:
an axum HTTP bridge over a rustdds pub/sub bus with a sled latest-state
cache.

Modelling choices (each definition is traced from the source):

* Serialized bytes are modelled at the JSON-value level: `serde_json`'s
  `to_string`/`from_slice` for the two derived record types are split into
  the derived (de)serialization between records and JSON values, which this
  repository's code determines, and the injective text rendering of JSON
  values, which lives inside the serde_json library and is out of scope.
  The cache therefore stores `Json` values standing for the stored bytes;
  a corrupt entry is a stored `Json` value that the derived deserializer
  rejects.
* The sled tree is modelled through the two operations the core uses,
  per-key `insert` and `get`, as a total map `String → Option Json`.
* Rust `u32` fields are modelled as `Nat`; the derived deserializer
  enforces the `u32` range bound, as serde does when the target field
  is a `u32`.
* A Rust panic (an `unwrap` on an error value) is modelled as `none` in an
  `Option` result: the function produces no response.
* The async subscription stream is modelled as the list of items it yields
  before it ends; the spawned subscriber task is the fold of the loop body
  over that list.
-/

/-- JSON values, as far as the two derived record types need them:
strings, non-negative numbers and objects (ordered field lists). -/
inductive Json where
  | str : String → Json
  | num : Nat → Json
  | obj : List (String × Json) → Json

/-- Field lookup in a JSON object, first occurrence wins — the access
pattern of serde's derived deserializer (field order independent). -/
def jsonField (name : String) : List (String × Json) → Option Json
  | [] => none
  | (k, v) :: rest => if k = name then some v else jsonField name rest

/-- Expect a JSON string (serde deserialization of a `String` field). -/
def asStr : Json → Option String
  | Json.str s => some s
  | _ => none

/-- Expect a JSON number in `u32` range (serde deserialization of a `u32`
field rejects out-of-range numbers). -/
def asU32 : Json → Option Nat
  | Json.num n => if n < 2 ^ 32 then some n else none
  | _ => none

/-- `struct SensorList { name: String, path: String }` (main.rs:24). -/
structure SensorList where
  name : String
  path : String
deriving DecidableEq, Repr

/-- `struct SensorConfig { sensor_type: String, frequency: u32, power: u32,
squelti: u32 }` (main.rs:29); `u32` fields as `Nat`. -/
structure SensorConfig where
  sensor_type : String
  frequency : Nat
  power : Nat
  squelti : Nat
deriving DecidableEq, Repr

/-- `struct SensorStatus` — same shape as `SensorConfig` (main.rs:42). -/
structure SensorStatus where
  sensor_type : String
  frequency : Nat
  power : Nat
  squelti : Nat
deriving DecidableEq, Repr

/-- `impl Keyed for SensorStatus`: the key is the `sensor_type` field
(main.rs:48-53). -/
def SensorStatus.key (s : SensorStatus) : String := s.sensor_type

/-- `impl Keyed for SensorConfig` (main.rs:35-40). -/
def SensorConfig.key (c : SensorConfig) : String := c.sensor_type

/-- The fields of a `SensorStatus`, read back as a `SensorConfig` (the two
records have identical field names and types). -/
def statusToConfig (s : SensorStatus) : SensorConfig :=
  ⟨s.sensor_type, s.frequency, s.power, s.squelti⟩

/-- All `u32` fields of a status are in `u32` range — automatic for the
Rust values, explicit for the `Nat` model. -/
def SensorStatus.validU32 (s : SensorStatus) : Prop :=
  s.frequency < 2 ^ 32 ∧ s.power < 2 ^ 32 ∧ s.squelti < 2 ^ 32

/-- Derived `Serialize` for `SensorStatus` at the JSON-value level:
fields in declaration order, as serde_json emits them. -/
def SensorStatus.toJson (s : SensorStatus) : Json :=
  Json.obj [("sensor_type", Json.str s.sensor_type),
            ("frequency", Json.num s.frequency),
            ("power", Json.num s.power),
            ("squelti", Json.num s.squelti)]

/-- Derived `Deserialize` for `SensorStatus` at the JSON-value level:
an object providing all four fields with the right types. -/
def SensorStatus.fromJson (j : Json) : Option SensorStatus :=
  match j with
  | Json.obj fields =>
    match jsonField "sensor_type" fields, jsonField "frequency" fields,
          jsonField "power" fields, jsonField "squelti" fields with
    | some jt, some jf, some jp, some jq =>
      match asStr jt, asU32 jf, asU32 jp, asU32 jq with
      | some t, some f, some p, some q => some ⟨t, f, p, q⟩
      | _, _, _, _ => none
    | _, _, _, _ => none
  | _ => none

/-- Derived `Deserialize` for `SensorConfig` at the JSON-value level. -/
def SensorConfig.fromJson (j : Json) : Option SensorConfig :=
  match j with
  | Json.obj fields =>
    match jsonField "sensor_type" fields, jsonField "frequency" fields,
          jsonField "power" fields, jsonField "squelti" fields with
    | some jt, some jf, some jp, some jq =>
      match asStr jt, asU32 jf, asU32 jp, asU32 jq with
      | some t, some f, some p, some q => some ⟨t, f, p, q⟩
      | _, _, _, _ => none
    | _, _, _, _ => none
  | _ => none

/-- `serde_json::to_string(&v)` at the loop's call site (main.rs:100):
a `Result`, always `Ok` for this derived impl (no fallible field). -/
def serde_to_string_status (s : SensorStatus) : Except Unit Json :=
  Except.ok s.toJson

/-- `Default::default()` for `SensorConfig`: empty string and zeroes. -/
def SensorConfig.zero : SensorConfig :=
  { sensor_type := "", frequency := 0, power := 0, squelti := 0 }

/-- The sled tree `db_status` through the two operations the core uses:
per-key atomic upsert and get (main.rs:92, 101, 189). -/
def SledTree : Type := String → Option Json

/-- `db_tree.insert(key, bytes)`: per-key upsert. -/
def SledTree.insert (t : SledTree) (k : String) (v : Json) : SledTree :=
  fun k' => if k' = k then some v else t k'

/-- `db_tree.get(key)`: per-key read. -/
def SledTree.get (t : SledTree) (k : String) : Option Json := t k

/-- A tree with no entries. -/
def emptyTree : SledTree := fun _ => none

/-- `rustdds::with_key::Sample`: a keyed sample is either a value or a
disposal/tombstone carrying only the key (main.rs:8, 99). -/
inductive Sample where
  | value (v : SensorStatus)
  | dispose (k : String)

/-- One item of `reader.async_sample_stream()`: `Ok` sample or a
transport-level read error (main.rs:88, 99). -/
def StreamItem : Type := Except Unit Sample

/-- The spawned subscriber task (main.rs:97-105):
`while let Some(Ok(Sample::Value(v))) = async_reader.next().await` — any
item that is not `Ok(Sample::Value(_))` fails the `while let` pattern and
exits the loop; a matching value is serialized
(`if let Ok(json) = serde_json::to_string(&v)`, items whose serialization
fails are skipped) and upserted under `v.key()`. The stream is the list of
items it yields before ending. -/
def subscriber_loop : List StreamItem → SledTree → SledTree
  | [], db => db
  | Except.ok (Sample.value v) :: rest, db =>
    match serde_to_string_status v with
    | Except.ok json => subscriber_loop rest (db.insert v.key json)
    | Except.error _ => subscriber_loop rest db
  | Except.ok (Sample.dispose _) :: _, db => db
  | Except.error _ :: _, db => db

/-- `get_handler_sensor_list` (main.rs:138-150): a constant response. -/
def get_handler_sensor_list : Nat × List SensorList :=
  (200, [{ name := "Sensor_Module_A", path := "/sensor/module_A" },
         { name := "Sensor_Module_B", path := "/sensor/module_B" }])

/-- `put_handler_sensor_config` (main.rs:161-176): locks the writer,
calls `writer.async_write(payload.clone(), None)`, and answers
`(200, payload)` on `Ok`, `(500, SensorConfig::default())` on `Err`.
The adapter's verdict is the injected `async_write` capability. -/
def put_handler_sensor_config (async_write : SensorConfig → Except Unit Unit)
    (payload : SensorConfig) : Nat × SensorConfig :=
  match async_write payload with
  | Except.ok _ => (200, payload)
  | Except.error _ => (500, SensorConfig.zero)

/-- The sequence of publish calls one `put_handler_sensor_config` request
makes: the body contains exactly one `async_write` call (main.rs:166),
reached on every control path, with no retry on either branch. -/
def put_handler_publish_calls (_async_write : SensorConfig → Except Unit Unit)
    (payload : SensorConfig) : List SensorConfig :=
  [payload]

/-- `get_handler_sensor_status` (main.rs:186-200): reads the fixed key
`"radio"`; on a present entry it deserializes with
`serde_json::from_slice(&value).unwrap()` into a `SensorConfig` — the
`unwrap` panics on deserialization failure, modelled as `none`; on a
missing entry it answers `(500, SensorConfig::default())`. -/
def get_handler_sensor_status (db_tree : SledTree) : Option (Nat × SensorConfig) :=
  match db_tree.get "radio" with
  | some value =>
    match SensorConfig.fromJson value with
    | some deser_json => some (200, deser_json)
    | none => none
  | none => some (500, SensorConfig.zero)

/-- Writer-lock actions of one `put_handler_sensor_config` request:
`writer.lock().await` (main.rs:165), the `async_write` call under the
guard (main.rs:166), and the guard drop when the handler's scope ends. -/
inductive WInstr where
  | lock
  | publish
  | unlock
deriving DecidableEq

/-- The lock/publish/unlock trace of `put_handler_sensor_config`, per
adapter-outcome branch: in both the `Ok` and the `Err` branch the guard is
acquired before `async_write` and dropped at scope end (main.rs:165-176). -/
def put_handler_instrs (accepted : Bool) : List WInstr :=
  if accepted then [WInstr.lock, WInstr.publish, WInstr.unlock]
  else [WInstr.lock, WInstr.publish, WInstr.unlock]

/-- State of `n` concurrent `put_handler_sensor_config` tasks sharing the
one `Arc<Mutex<DataWriter>>` (main.rs:21, 108): each task's position in
its instruction trace, and the current mutex owner. -/
structure WSys (n : Nat) where
  pc : Fin n → Nat
  owner : Option (Fin n)

/-- All tasks at the start, mutex free. -/
def WSys.init (n : Nat) : WSys n :=
  { pc := fun _ => 0, owner := none }

/-- Interleaving semantics: a task may run its next instruction; `lock`
(the tokio `Mutex::lock().await`) only proceeds when the mutex is free,
`publish` needs no precondition, `unlock` (the guard drop) frees it. -/
inductive WStep {n : Nat} (outcome : Fin n → Bool) : WSys n → WSys n → Prop
  | lock (i : Fin n) (s : WSys n) :
      (put_handler_instrs (outcome i))[s.pc i]? = some WInstr.lock →
      s.owner = none →
      WStep outcome s { pc := Function.update s.pc i (s.pc i + 1), owner := some i }
  | publish (i : Fin n) (s : WSys n) :
      (put_handler_instrs (outcome i))[s.pc i]? = some WInstr.publish →
      WStep outcome s { pc := Function.update s.pc i (s.pc i + 1), owner := s.owner }
  | unlock (i : Fin n) (s : WSys n) :
      (put_handler_instrs (outcome i))[s.pc i]? = some WInstr.unlock →
      WStep outcome s { pc := Function.update s.pc i (s.pc i + 1), owner := none }

/-- States reachable from the start by interleaved execution. -/
def WReachable {n : Nat} (outcome : Fin n → Bool) (s : WSys n) : Prop :=
  Relation.ReflTransGen (WStep outcome) (WSys.init n) s

/-- Task `i` is between its `lock` and its `unlock` (it has executed
`lock` and at most `publish`). -/
def WSys.holding {n : Nat} (s : WSys n) (i : Fin n) : Prop :=
  s.pc i = 1 ∨ s.pc i = 2

lemma put_handler_instrs_eq (b : Bool) :
    put_handler_instrs b = [WInstr.lock, WInstr.publish, WInstr.unlock] := by
  cases b <;> rfl

lemma instrs_lock_pc {b : Bool} {k : Nat}
    (h : (put_handler_instrs b)[k]? = some WInstr.lock) : k = 0 := by
  rw [put_handler_instrs_eq] at h
  match k with
  | 0 => rfl
  | 1 => simp at h
  | 2 => simp at h
  | k + 3 => simp at h

lemma instrs_publish_pc {b : Bool} {k : Nat}
    (h : (put_handler_instrs b)[k]? = some WInstr.publish) : k = 1 := by
  rw [put_handler_instrs_eq] at h
  match k with
  | 0 => simp at h
  | 1 => rfl
  | 2 => simp at h
  | k + 3 => simp at h

lemma instrs_unlock_pc {b : Bool} {k : Nat}
    (h : (put_handler_instrs b)[k]? = some WInstr.unlock) : k = 2 := by
  rw [put_handler_instrs_eq] at h
  match k with
  | 0 => simp at h
  | 1 => simp at h
  | 2 => rfl
  | k + 3 => simp at h

/-- The lock-ownership invariant: a task is inside its critical section
exactly when it owns the mutex. -/
def WInv {n : Nat} (s : WSys n) : Prop :=
  ∀ i, (s.pc i = 1 ∨ s.pc i = 2) ↔ s.owner = some i

lemma winv_init (n : Nat) : WInv (WSys.init n) := by
  intro i
  constructor
  · rintro (h | h) <;> simp [WSys.init] at h
  · intro h
    simp [WSys.init] at h

lemma winv_step {n : Nat} {outcome : Fin n → Bool} {s t : WSys n}
    (hs : WInv s) (hst : WStep outcome s t) : WInv t := by
  cases hst with
  | lock i s hins hown =>
    have hpc : s.pc i = 0 := instrs_lock_pc hins
    intro j
    rcases eq_or_ne j i with rfl | hj
    · constructor
      · intro _
        rfl
      · intro _
        left
        show Function.update s.pc j (s.pc j + 1) j = 1
        rw [Function.update_same, hpc]
    · have hpcj : Function.update s.pc i (s.pc i + 1) j = s.pc j :=
        Function.update_noteq hj _ _
      constructor
      · intro hhold
        dsimp only at hhold
        rw [hpcj] at hhold
        have := (hs j).mp hhold
        rw [hown] at this
        exact absurd this (by simp)
      · intro hoj
        have hij : i = j := by
          injection hoj
        exact absurd hij.symm hj
  | publish i s hins =>
    have hpc : s.pc i = 1 := instrs_publish_pc hins
    have hown : s.owner = some i := (hs i).mp (Or.inl hpc)
    intro j
    rcases eq_or_ne j i with rfl | hj
    · constructor
      · intro _
        exact hown
      · intro _
        right
        show Function.update s.pc j (s.pc j + 1) j = 2
        rw [Function.update_same, hpc]
    · have hpcj : Function.update s.pc i (s.pc i + 1) j = s.pc j :=
        Function.update_noteq hj _ _
      constructor
      · intro hhold
        dsimp only at hhold
        rw [hpcj] at hhold
        exact (hs j).mp hhold
      · intro hoj
        dsimp only at hoj
        have := (hs j).mpr hoj
        dsimp only
        rw [hpcj]
        exact this
  | unlock i s hins =>
    have hpc : s.pc i = 2 := instrs_unlock_pc hins
    have hown : s.owner = some i := (hs i).mp (Or.inr hpc)
    intro j
    rcases eq_or_ne j i with rfl | hj
    · constructor
      · intro hhold
        dsimp only at hhold
        rw [show Function.update s.pc j (s.pc j + 1) j = s.pc j + 1 from
              Function.update_same _ _ _, hpc] at hhold
        rcases hhold with h | h <;> omega
      · intro h
        exact absurd h (by simp)
    · have hpcj : Function.update s.pc i (s.pc i + 1) j = s.pc j :=
        Function.update_noteq hj _ _
      constructor
      · intro hhold
        dsimp only at hhold
        rw [hpcj] at hhold
        have := (hs j).mp hhold
        rw [hown] at this
        have hij : i = j := by
          injection this
        exact absurd hij.symm hj
      · intro h
        exact absurd h (by simp)

lemma winv_reachable {n : Nat} {outcome : Fin n → Bool} {s : WSys n}
    (h : WReachable outcome s) : WInv s := by
  induction h with
  | refl => exact winv_init n
  | tail _ hbc ih => exact winv_step ih hbc

/-- The most recently observed update for key `K` in a list of updates in
arrival order, the spec's per-key monotonicity proxy. -/
def lastKeyed (K : String) : List SensorStatus → Option SensorStatus
  | [] => none
  | v :: rest =>
    match lastKeyed K rest with
    | some w => some w
    | none => if v.key = K then some v else none

/-- A stream consisting only of valid value samples. -/
def valueStream (items : List SensorStatus) : List StreamItem :=
  items.map (fun v => Except.ok (Sample.value v))

lemma config_fromJson_status_toJson (s : SensorStatus) (h : s.validU32) :
    SensorConfig.fromJson s.toJson = some (statusToConfig s) := by
  obtain ⟨h1, h2, h3⟩ := h
  have h1' : s.frequency < 4294967296 := by simpa using h1
  have h2' : s.power < 4294967296 := by simpa using h2
  have h3' : s.squelti < 4294967296 := by simpa using h3
  simp [SensorConfig.fromJson, SensorStatus.toJson, statusToConfig,
        jsonField, asStr, asU32, h1', h2', h3']

lemma subscriber_loop_valueStream_get (items : List SensorStatus)
    (db : SledTree) (K : String) :
    (subscriber_loop (valueStream items) db).get K =
      match lastKeyed K items with
      | some v => some v.toJson
      | none => db.get K := by
  induction items generalizing db with
  | nil => rfl
  | cons v rest ih =>
    show (subscriber_loop (valueStream rest) (db.insert v.key v.toJson)).get K = _
    rw [ih]
    cases hl : lastKeyed K rest with
    | some w => simp [lastKeyed, hl]
    | none =>
      simp only [lastKeyed, hl]
      by_cases hk : v.key = K
      · rw [if_pos hk]
        show (if K = v.key then some v.toJson else db.get K) = some v.toJson
        rw [if_pos hk.symm]
      · rw [if_neg hk]
        show (if K = v.key then some v.toJson else db.get K) = db.get K
        rw [if_neg (fun hK => hk hK.symm)]

/-- C1 counterexample: the stream yields a disposal item followed by a
valid value for key "radio". The claim says the disposal is ignored and
the loop continues, so the following value would be upserted; in the code
the `while let Some(Ok(Sample::Value(v)))` pattern fails on the disposal
item and the loop exits, so the cache still has no entry for "radio". -/
theorem subscriber_loop_dispose_stops_cex :
    (subscriber_loop [Except.ok (Sample.dispose "radio"),
        Except.ok (Sample.value ⟨"radio", 1, 2, 3⟩)] emptyTree).get "radio" =
      none := rfl

/-- C1 (amended): for every item of the subscription stream, a
disposal/tombstone or transport-error item causes no cache mutation but
terminates the loop (subsequent items are not consumed); a valid value is
serialized (which never fails for this type) and upserted under its key,
and the loop continues; the loop also terminates when the stream ends. -/
theorem subscriber_loop_item_semantics :
    (∀ db : SledTree, subscriber_loop [] db = db) ∧
    (∀ (k : String) (rest : List StreamItem) (db : SledTree),
      subscriber_loop (Except.ok (Sample.dispose k) :: rest) db = db) ∧
    (∀ (e : Unit) (rest : List StreamItem) (db : SledTree),
      subscriber_loop (Except.error e :: rest) db = db) ∧
    (∀ (v : SensorStatus) (rest : List StreamItem) (db : SledTree),
      subscriber_loop (Except.ok (Sample.value v) :: rest) db =
        subscriber_loop rest (db.insert v.key v.toJson)) :=
  ⟨fun _ => rfl, fun _ _ _ => rfl, fun _ _ _ => rfl, fun _ _ _ => rfl⟩

/-- C2 counterexample: an entry is present under "radio" but does not
deserialize as a `SensorConfig`. The claim says the handler returns a
failure-class response with the zero-valued body; in the code
`serde_json::from_slice(&value).unwrap()` panics, producing no response. -/
theorem read_status_corrupt_entry_panics_cex :
    get_handler_sensor_status (emptyTree.insert "radio" (Json.str "corrupt")) =
      none := by
  decide

/-- C2 (amended): if the cache has no entry under "radio" the handler
returns 500 with the zero-valued payload; if an entry is present but fails
to deserialize the handler panics on the `unwrap` and produces no
response — so the two failure causes are not surfaced identically. -/
theorem read_status_miss_500_corrupt_panics :
    (∀ db : SledTree, db.get "radio" = none →
      get_handler_sensor_status db = some (500, SensorConfig.zero)) ∧
    (∀ (db : SledTree) (j : Json), db.get "radio" = some j →
      SensorConfig.fromJson j = none → get_handler_sensor_status db = none) := by
  constructor
  · intro db h
    unfold get_handler_sensor_status
    rw [h]
  · intro db j hget hj
    unfold get_handler_sensor_status
    rw [hget]
    simp [hj]

/-- Witness for C2 (amended) at the empty tree and at a tree whose "radio"
entry holds a number instead of an object. -/
theorem read_status_miss_500_corrupt_panics_witness :
    get_handler_sensor_status emptyTree = some (500, SensorConfig.zero) ∧
    get_handler_sensor_status (emptyTree.insert "radio" (Json.num 0)) = none :=
  ⟨read_status_miss_500_corrupt_panics.1 emptyTree rfl,
   read_status_miss_500_corrupt_panics.2 (emptyTree.insert "radio" (Json.num 0))
     (Json.num 0) rfl rfl⟩

/-- C3 counterexample: a single update arrives for key "thermo" and is
upserted. The claim says a read-status call then observes that update; in
the code the handler reads the fixed key "radio", finds nothing, and
answers 500 with the zero-valued payload, which differs from the update. -/
theorem read_status_other_key_cex :
    get_handler_sensor_status
        (subscriber_loop (valueStream [⟨"thermo", 7, 8, 9⟩]) emptyTree) =
      some (500, SensorConfig.zero) ∧
    statusToConfig ⟨"thermo", 7, 8, 9⟩ ≠ SensorConfig.zero := by
  constructor
  · decide
  · decide

/-- C3 (amended): after the Subscriber Loop has upserted updates
`v1 … vN` for key `K` in arrival order (interleaved arbitrarily with
updates for other keys), the cache entry for `K` holds the serialization
of `vN` — never an earlier value; and when `K` is the fixed key "radio",
a read-status call observes `vN`'s fields. -/
theorem subscriber_last_write_wins (items : List SensorStatus) (db : SledTree)
    (K : String) (v : SensorStatus)
    (hlast : lastKeyed K items = some v) (hval : v.validU32) :
    (subscriber_loop (valueStream items) db).get K = some v.toJson ∧
    (K = "radio" →
      get_handler_sensor_status (subscriber_loop (valueStream items) db) =
        some (200, statusToConfig v)) := by
  have hmain : (subscriber_loop (valueStream items) db).get K = some v.toJson := by
    rw [subscriber_loop_valueStream_get, hlast]
  refine ⟨hmain, ?_⟩
  intro hK
  subst hK
  unfold get_handler_sensor_status
  rw [hmain]
  simp [config_fromJson_status_toJson v hval]

/-- Witness for C3 (amended): two successive "radio" updates; the cache
and the read-status response reflect the second one. -/
theorem subscriber_last_write_wins_witness :
    (subscriber_loop (valueStream [⟨"radio", 1, 0, 0⟩, ⟨"radio", 2, 0, 0⟩])
        emptyTree).get "radio" = some (SensorStatus.toJson ⟨"radio", 2, 0, 0⟩) ∧
    ("radio" = "radio" →
      get_handler_sensor_status
          (subscriber_loop (valueStream [⟨"radio", 1, 0, 0⟩, ⟨"radio", 2, 0, 0⟩])
            emptyTree) =
        some (200, statusToConfig ⟨"radio", 2, 0, 0⟩)) :=
  subscriber_last_write_wins [⟨"radio", 1, 0, 0⟩, ⟨"radio", 2, 0, 0⟩] emptyTree
    "radio" ⟨"radio", 2, 0, 0⟩ (by decide) (by norm_num [SensorStatus.validU32])

/-- C4: while the adapter accepts the publish, submit-command answers 200
with the submitted command echoed back exactly, field for field. -/
theorem submit_command_success_echoes
    (async_write : SensorConfig → Except Unit Unit) (payload : SensorConfig)
    (h : async_write payload = Except.ok ()) :
    put_handler_sensor_config async_write payload = (200, payload) := by
  unfold put_handler_sensor_config
  rw [h]

/-- Witness for C4 at an always-accepting adapter and a concrete command. -/
theorem submit_command_success_echoes_witness :
    put_handler_sensor_config (fun _ => Except.ok ()) ⟨"radio", 100, 5, 2⟩ =
      (200, ⟨"radio", 100, 5, 2⟩) :=
  submit_command_success_echoes (fun _ => Except.ok ()) ⟨"radio", 100, 5, 2⟩ rfl

/-- C5: while the adapter rejects the publish, submit-command answers 500
with the zero-valued command, and the handler makes exactly one publish
call — the publish is never retried. -/
theorem submit_command_failure_zero_no_retry
    (async_write : SensorConfig → Except Unit Unit) (payload : SensorConfig)
    (h : async_write payload = Except.error ()) :
    put_handler_sensor_config async_write payload =
      (500, { sensor_type := "", frequency := 0, power := 0, squelti := 0 }) ∧
    put_handler_publish_calls async_write payload = [payload] := by
  constructor
  · unfold put_handler_sensor_config
    rw [h]
    rfl
  · rfl

/-- Witness for C5 at an always-rejecting adapter and a concrete command. -/
theorem submit_command_failure_zero_no_retry_witness :
    put_handler_sensor_config (fun _ => Except.error ()) ⟨"radio", 100, 5, 2⟩ =
      (500, { sensor_type := "", frequency := 0, power := 0, squelti := 0 }) ∧
    put_handler_publish_calls (fun _ => Except.error ()) ⟨"radio", 100, 5, 2⟩ =
      [⟨"radio", 100, 5, 2⟩] :=
  submit_command_failure_zero_no_retry (fun _ => Except.error ())
    ⟨"radio", 100, 5, 2⟩ rfl

/-- C6: read-status depends only on the cache entry of the fixed key
"radio" — two caches agreeing there get the same response, and upserting
any other key leaves the response unchanged. -/
theorem read_status_fixed_key_radio :
    (∀ db1 db2 : SledTree, db1.get "radio" = db2.get "radio" →
      get_handler_sensor_status db1 = get_handler_sensor_status db2) ∧
    (∀ (db : SledTree) (k : String) (j : Json), k ≠ "radio" →
      get_handler_sensor_status (db.insert k j) = get_handler_sensor_status db) := by
  constructor
  · intro db1 db2 h
    unfold get_handler_sensor_status
    rw [h]
  · intro db k j hk
    have hget : (db.insert k j).get "radio" = db.get "radio" := by
      show (if "radio" = k then some j else db "radio") = db "radio"
      rw [if_neg (fun hK => hk hK.symm)]
    unfold get_handler_sensor_status
    rw [hget]

/-- Witness for C6: equal "radio" entries give equal responses, and an
upsert under "thermo" does not change the response. -/
theorem read_status_fixed_key_radio_witness :
    get_handler_sensor_status emptyTree = get_handler_sensor_status emptyTree ∧
    get_handler_sensor_status (emptyTree.insert "thermo" (Json.num 1)) =
      get_handler_sensor_status emptyTree :=
  ⟨read_status_fixed_key_radio.1 emptyTree emptyTree rfl,
   read_status_fixed_key_radio.2 emptyTree "thermo" (Json.num 1) (by decide)⟩

/-- C7: deserializing the serialization of any valid status (all `u32`
fields in range, including zero and the `u32` maximum) yields the original
status. -/
theorem status_serialize_roundtrip (s : SensorStatus) (h : s.validU32) :
    SensorStatus.fromJson s.toJson = some s := by
  obtain ⟨h1, h2, h3⟩ := h
  have h1' : s.frequency < 4294967296 := by simpa using h1
  have h2' : s.power < 4294967296 := by simpa using h2
  have h3' : s.squelti < 4294967296 := by simpa using h3
  simp [SensorStatus.fromJson, SensorStatus.toJson,
        jsonField, asStr, asU32, h1', h2', h3']

/-- Witness for C7 at the all-maximum-`u32` status and the zero status. -/
theorem status_serialize_roundtrip_witness :
    SensorStatus.fromJson
        (SensorStatus.toJson ⟨"radio", 4294967295, 4294967295, 4294967295⟩) =
      some ⟨"radio", 4294967295, 4294967295, 4294967295⟩ ∧
    SensorStatus.fromJson (SensorStatus.toJson ⟨"", 0, 0, 0⟩) =
      some ⟨"", 0, 0, 0⟩ :=
  ⟨status_serialize_roundtrip ⟨"radio", 4294967295, 4294967295, 4294967295⟩
      (by norm_num [SensorStatus.validU32]),
   status_serialize_roundtrip ⟨"", 0, 0, 0⟩ (by norm_num [SensorStatus.validU32])⟩

/-- C8: in every reachable interleaving of concurrent submit-command
tasks, at most one task is between its writer-lock acquisition and its
release (no overlapping acquire/release intervals); and on every branch of
the handler — adapter accept or reject — the trace ends with the unlock,
so the handle is released unconditionally. -/
theorem put_handler_writer_mutual_exclusion :
    (∀ (n : Nat) (outcome : Fin n → Bool) (s : WSys n), WReachable outcome s →
      ∀ i j : Fin n, s.holding i → s.holding j → i = j) ∧
    (∀ accepted : Bool,
      (put_handler_instrs accepted).getLast? = some WInstr.unlock) := by
  constructor
  · intro n outcome s hreach i j hi hj
    have hinv := winv_reachable hreach
    have h1 := (hinv i).mp hi
    have h2 := (hinv j).mp hj
    rw [h1] at h2
    exact Option.some.inj h2
  · intro b
    cases b <;> rfl

/-- Witness for C8: a two-task system in which task 0 has just acquired
the lock is reachable; both mutual-exclusion hypotheses are discharged on
task 0 there. -/
theorem put_handler_writer_mutual_exclusion_witness :
    ((0 : Fin 2) = 0) ∧
    (put_handler_instrs true).getLast? = some WInstr.unlock :=
  ⟨put_handler_writer_mutual_exclusion.1 2 (fun _ => true)
      { pc := Function.update (WSys.init 2).pc 0 ((WSys.init 2).pc 0 + 1),
        owner := some 0 }
      (Relation.ReflTransGen.single (WStep.lock 0 (WSys.init 2) rfl rfl))
      0 0 (Or.inl (by simp [WSys.init])) (Or.inl (by simp [WSys.init])),
   put_handler_writer_mutual_exclusion.2 true⟩

/-- C9: list-entities is the constant success response carrying the fixed
ordered pair of entity descriptors; it cannot fail. -/
theorem sensor_list_static_response :
    get_handler_sensor_list =
      (200, [{ name := "Sensor_Module_A", path := "/sensor/module_A" },
             { name := "Sensor_Module_B", path := "/sensor/module_B" }]) := rfl

/-- C10: the JSON serialization of any valid `SensorStatus` deserializes
successfully as a `SensorConfig` with identical field values — the read
path is value-preserving on bytes written by the Subscriber Loop. -/
theorem status_bytes_read_as_config (s : SensorStatus) (h : s.validU32) :
    SensorConfig.fromJson s.toJson = some (statusToConfig s) :=
  config_fromJson_status_toJson s h

/-- Witness for C10 at a concrete status. -/
theorem status_bytes_read_as_config_witness :
    SensorConfig.fromJson (SensorStatus.toJson ⟨"radio", 100, 5, 2⟩) =
      some (statusToConfig ⟨"radio", 100, 5, 2⟩) :=
  status_bytes_read_as_config ⟨"radio", 100, 5, 2⟩ (by norm_num [SensorStatus.validU32])
